import Mathlib

/-!
A shallow embedding of the SEO content-generation and scoring engine of
`content_generator.py` (class `SEOContentGenerator`), together with proofs
about it.

Modelling conventions:
* Python strings are Lean `String`s; the handful of Python string methods the
  code uses (`str.count`, `in`, `str.split`, `str.replace`, `str.strip`,
  `str.lower`, `str.title`, `'sep'.join`) are embedded as fuel-based
  structural recursions over `List Char` so that every definition is
  executable and kernel-reducible.
* Python dicts returned by the engine are embedded as structures; a dict that
  may omit keys (the score report of `analyze_seo_score`) uses `Option`
  fields, `none` meaning "key absent".
* `random.choice(pool)` / `random.randint(5, 15)` and `datetime.now()` are
  pseudo-random / environment inputs; they are embedded as explicit fields of
  a `Randomness` record threaded through generation (`pyChoice pool i` picks
  `pool[i % len(pool)]`, which ranges over exactly the choices
  `random.choice` can make on a non-empty pool).
* Python float arithmetic on keyword densities is embedded as exact rational
  arithmetic (`ℚ`); the density comparisons against the literals 1.0 / 2.0 /
  20 are written as the equivalent integer comparisons (e.g. `d < 1.0` with
  `d = count / total * 100` and `total > 0` becomes `100 * count < total`)
  so that they stay kernel-decidable.
* Exceptions (`KeyError` from `self.content_templates[content_type]`) are
  embedded with `Except String`; the top-level `try/except` of
  `generate_seo_article` maps a raised error `e` to the returned dict
  `{"error": f"Error generating content: {str(e)}"}`.
-/

/-- Fuel-based counter of non-overlapping occurrences of `needle` in the
remaining haystack, scanning left to right — the semantics of Python
`str.count` for a non-empty needle. -/
def countOccsAux (needle : List Char) : Nat → List Char → Nat
  | 0, _ => 0
  | _ + 1, [] => 0
  | fuel + 1, c :: t =>
    if needle.isPrefixOf (c :: t) then
      1 + countOccsAux needle fuel ((c :: t).drop needle.length)
    else
      countOccsAux needle fuel t

/-- Python `hay.count(needle)` (for the empty needle Python returns
`len(hay) + 1`). -/
def pyCount (hay needle : String) : Nat :=
  if needle.data = [] then hay.data.length + 1
  else countOccsAux needle.data (hay.data.length + 1) hay.data

/-- Python `needle in hay` (substring containment). -/
def pyContains (hay needle : String) : Bool :=
  pyCount hay needle != 0

/-- Python `s.lower()` (ASCII case folding, which covers every string the
engine manipulates). -/
def strLower (s : String) : String :=
  ⟨s.data.map Char.toLower⟩

/-- Python `s.strip()`: drop leading and trailing whitespace. -/
def pyStrip (s : String) : String :=
  ⟨((s.data.dropWhile Char.isWhitespace).reverse.dropWhile Char.isWhitespace).reverse⟩

/-- Helper for `pyWords`: split a character list at every whitespace
character (keeping empty chunks, which `pyWords` filters out). -/
def splitWSAux (cur : List Char) : List Char → List (List Char)
  | [] => [cur.reverse]
  | c :: t =>
    if c.isWhitespace then cur.reverse :: splitWSAux [] t
    else splitWSAux (c :: cur) t

/-- Python `s.split()` with no arguments: whitespace-delimited words, empty
chunks dropped. -/
def pyWords (s : String) : List String :=
  ((splitWSAux [] s.data).filter (· ≠ [])).map String.mk

/-- Fuel-based splitter on a non-empty separator string; the semantics of
Python `s.split(sep)`. -/
def splitOnAux (sep : List Char) : Nat → List Char → List Char → List (List Char)
  | 0, cur, rest => [cur.reverse ++ rest]
  | fuel + 1, cur, rest =>
    match rest with
    | [] => [cur.reverse]
    | c :: t =>
      if sep.isPrefixOf (c :: t) then
        cur.reverse :: splitOnAux sep fuel [] ((c :: t).drop sep.length)
      else
        splitOnAux sep fuel (c :: cur) t

/-- Python `s.split(sep)` for a non-empty `sep` (the engine never splits on
an empty separator, which Python rejects). -/
def pySplitOn (s sep : String) : List String :=
  (splitOnAux sep.data (s.data.length + 1) [] s.data).map String.mk

/-- Python `sep.join(parts)`. -/
def pyJoin (sep : String) : List String → String
  | [] => ""
  | [x] => x
  | x :: y :: t => x ++ sep ++ pyJoin sep (y :: t)

/-- Fuel-based replacement of every non-overlapping occurrence of `pat`,
scanning left to right — the semantics of Python `str.replace` for a
non-empty pattern. -/
def replaceAux (pat rep : List Char) : Nat → List Char → List Char
  | 0, hay => hay
  | _ + 1, [] => []
  | fuel + 1, c :: t =>
    if pat.isPrefixOf (c :: t) then
      rep ++ replaceAux pat rep fuel ((c :: t).drop pat.length)
    else
      c :: replaceAux pat rep fuel t

/-- Python `s.replace(pat, rep)` for a non-empty pattern (every pattern the
engine replaces is a non-empty literal such as `"{keyword}"`). -/
def pyReplace (s pat rep : String) : String :=
  if pat.data = [] then s
  else ⟨replaceAux pat.data rep.data (s.data.length + 1) s.data⟩

/-- Helper for `pyTitle`: `prevAlpha` records whether the previous character
was alphabetic. -/
def pyTitleAux : Bool → List Char → List Char
  | _, [] => []
  | prevAlpha, c :: t =>
    (if c.isAlpha then (if prevAlpha then c.toLower else c.toUpper) else c)
      :: pyTitleAux c.isAlpha t

/-- Python `s.title()`: capitalize the first letter of every alphabetic run,
lowercase the rest (ASCII approximation, covering the engine's inputs). -/
def pyTitle (s : String) : String :=
  ⟨pyTitleAux false s.data⟩

/-- Model of `random.choice(pool)`: the environment supplies an index `i`
and the element `pool[i % len(pool)]` is chosen.  For every non-empty pool
this ranges over exactly the elements `random.choice` can return. -/
def pyChoice (pool : List String) (i : Nat) : String :=
  pool.getD (i % pool.length) ""

/-- Model of the Python format expression `f"{q:.1f}"` for the non-negative
densities the engine formats: one decimal digit, rounding to nearest. -/
def fmt1 (q : ℚ) : String :=
  let n : ℤ := round (q * 10)
  toString (n / 10) ++ "." ++ toString (n % 10)

/-- Helper for `findHeadings`: fuel-based scan for the regex
`re.findall(r'## (.+)', content)` — at each position where `"## "` matches
and is followed by at least one non-newline character, capture up to the end
of the line and continue past the match; otherwise advance one character. -/
def findHeadingsAux : Nat → List Char → List (List Char)
  | 0, _ => []
  | fuel + 1, cs =>
    match cs with
    | '#' :: '#' :: ' ' :: r =>
      let grp := r.takeWhile (· ≠ '\n')
      if grp = [] then findHeadingsAux fuel ('#' :: ' ' :: r)
      else grp :: findHeadingsAux fuel (r.drop grp.length)
    | _ :: t => findHeadingsAux fuel t
    | [] => []

/-- `re.findall(r'## (.+)', content)` from the keyword-in-headings check of
`analyze_seo_score` (line 603). -/
def findHeadings (content : String) : List String :=
  (findHeadingsAux (content.data.length + 1) content.data).map String.mk

/-- The dict returned by `analyze_seo_score`.  `none` models an absent key:
the empty-content short-circuit returns only `score` and `issues`. -/
structure ScoreReport where
  score : Int
  issues : List String
  keyword_density : Option ℚ := none
  word_count : Option Nat := none
  h2_count : Option Nat := none
  recommendations : Option (List String) := none
  grade : Option String := none
deriving Repr, DecidableEq

/-- The contribution of one scoring criterion: points added, issues
appended, recommendations appended. -/
structure Crit where
  pts : Int
  iss : List String
  recs : List String
deriving Repr, DecidableEq

/-- Keyword-density criterion of `analyze_seo_score` (lines 567-580).
`primary_density` is `(primary_count / total_words) * 100`; the float
comparisons `1.0 <= d <= 2.0` and `d < 1.0` are written as the equivalent
integer comparisons on `100 * primary_count` versus `total_words`
(valid because `total_words > 0` on this path). -/
def density_check (primary_count total_words : Nat) (primary_density : ℚ) : Crit :=
  if total_words ≤ 100 * primary_count ∧ 100 * primary_count ≤ 2 * total_words then
    ⟨20, [], []⟩
  else if 100 * primary_count < total_words then
    ⟨10, ["Primary keyword density is low (" ++ fmt1 primary_density ++ "%)"],
      ["Increase primary keyword usage naturally"]⟩
  else
    ⟨5, ["Primary keyword density is high (" ++ fmt1 primary_density ++ "%)"],
      ["Reduce keyword density to avoid over-optimization"]⟩

/-- Content-length criterion of `analyze_seo_score` (lines 582-590). -/
def length_check (total_words : Nat) : Crit :=
  if 800 ≤ total_words ∧ total_words ≤ 2000 then ⟨20, [], []⟩
  else if total_words < 800 then
    ⟨10, ["Content is short (" ++ toString total_words ++ " words)"],
      ["Consider adding more comprehensive information"]⟩
  else ⟨15, [], []⟩

/-- Heading-structure criterion of `analyze_seo_score` (lines 592-600). -/
def heading_check (h2_count : Nat) : Crit :=
  if 3 ≤ h2_count then ⟨15, [], []⟩
  else if 2 ≤ h2_count then ⟨10, [], []⟩
  else
    ⟨0, ["Add more H2 headings for better structure"],
      ["Include 3-5 H2 headings for optimal structure"]⟩

/-- Keyword-in-headings criterion of `analyze_seo_score` (lines 602-610). -/
def keyword_heading_check (keyword_in_headings : Bool) : Crit :=
  if keyword_in_headings then ⟨15, [], []⟩
  else
    ⟨0, ["Primary keyword not found in headings"],
      ["Include primary keyword in at least one heading"]⟩

/-- Secondary-keywords criterion of `analyze_seo_score` (lines 612-619):
only evaluated when `secondary_keywords` is non-empty. -/
def secondary_check (content : String) (secondary_keywords : List String) : Crit :=
  if secondary_keywords ≠ [] then
    let secondary_found :=
      (secondary_keywords.filter fun kw => pyContains (strLower content) (strLower kw)).length
    if 0 < secondary_found then ⟨10, [], []⟩
    else
      ⟨0, ["Secondary keywords not found in content"],
        ["Include secondary keywords naturally in content"]⟩
  else ⟨0, [], []⟩

/-- Readability criterion of `analyze_seo_score` (lines 621-627): the float
comparison `total_words / max(content.count('.'), 1) <= 20` is written as the
equivalent integer comparison. -/
def readability_check (total_words dots : Nat) : Crit :=
  if total_words ≤ 20 * max dots 1 then ⟨10, [], []⟩
  else
    ⟨0, ["Sentences are too long on average"],
      ["Use shorter sentences for better readability"]⟩

/-- Letter grade from score: `SEOContentGenerator.get_seo_grade`
(lines 642-655). -/
def get_seo_grade (score : Int) : String :=
  if 90 ≤ score then "A+"
  else if 80 ≤ score then "A"
  else if 70 ≤ score then "B"
  else if 60 ≤ score then "C"
  else if 50 ≤ score then "D"
  else "F"

/-- Assembly of the report dict of `analyze_seo_score` (lines 629-640) from
the six criterion contributions, in program order: `score` is the sum capped
at `max_score = 100`, issues and recommendations are the appended
per-criterion lists in evaluation order. -/
def combine_report (c1 c2 c3 c4 c5 c6 : Crit) (primary_density : ℚ)
    (total_words h2_count : Nat) : ScoreReport :=
  let score := c1.pts + c2.pts + c3.pts + c4.pts + c5.pts + c6.pts
  let final_score := min score 100
  { score := final_score
    issues := c1.iss ++ c2.iss ++ c3.iss ++ c4.iss ++ c5.iss ++ c6.iss
    keyword_density := some primary_density
    word_count := some total_words
    h2_count := some h2_count
    recommendations := some (c1.recs ++ c2.recs ++ c3.recs ++ c4.recs ++ c5.recs ++ c6.recs)
    grade := some (get_seo_grade final_score) }

/-- Main branch of `analyze_seo_score` (the `total_words ≠ 0` path,
lines 562-640): evaluates the six criteria in program order and assembles
the report. -/
def analyze_main (content primary_keyword : String)
    (secondary_keywords : List String) : ScoreReport :=
  let total_words := (pyWords content).length
  let primary_count := pyCount (strLower content) (strLower primary_keyword)
  let primary_density : ℚ := (primary_count : ℚ) / (total_words : ℚ) * 100
  let c1 := density_check primary_count total_words primary_density
  let c2 := length_check total_words
  let h2_count := pyCount content "## "
  let c3 := heading_check h2_count
  let headings := findHeadings content
  let keyword_in_headings :=
    headings.any fun hd => pyContains (strLower hd) (strLower primary_keyword)
  let c4 := keyword_heading_check keyword_in_headings
  let c5 := secondary_check content secondary_keywords
  let dots := pyCount content "."
  let c6 := readability_check total_words dots
  combine_report c1 c2 c3 c4 c5 c6 primary_density total_words h2_count

/-- `SEOContentGenerator.analyze_seo_score` (lines 554-640): with no
whitespace-delimited words the function short-circuits to
`{"score": 0, "issues": ["No content to analyze"]}`. -/
def analyze_seo_score (content primary_keyword : String)
    (secondary_keywords : List String) : ScoreReport :=
  if (pyWords content).length = 0 then
    { score := 0, issues := ["No content to analyze"] }
  else analyze_main content primary_keyword secondary_keywords

/-- One entry of the `content_templates` dict built by
`load_content_templates` (lines 15-78): its `"structure"` and
`"intro_hooks"` lists. -/
structure ContentTemplate where
  structure_ : List String
  intro_hooks : List String
deriving Repr, DecidableEq

/-- The `"blog_post"` entry of the `content_templates` dict
(lines 18-32), also the fallback value of the `.get` lookup on line 235. -/
def blog_post_template : ContentTemplate :=
  { structure_ := ["introduction", "main_content_sections", "conclusion", "call_to_action"]
    intro_hooks :=
      ["Did you know that {statistic}?",
       "Have you ever wondered {question}?",
       "In today\x27s {context}, {main_topic} has become more important than ever.",
       "{Primary_keyword} is transforming the way we {action}.",
       "The ultimate guide to {main_topic} starts here."] }

/-- `load_content_templates` (lines 15-78), as a lookup from the
`content_type` key; `none` models a missing key. -/
def content_templates (content_type : String) : Option ContentTemplate :=
  if content_type = "blog_post" then
    some blog_post_template
  else if content_type = "review" then
    some
      { structure_ := ["product_overview", "key_features", "pros_and_cons", "comparison", "final_verdict"]
        intro_hooks :=
          ["Looking for an honest {product_type} review?",
           "After {time_period} of testing {product_name}, here\x27s what we found.",
           "Is {product_name} worth your money? Let\x27s find out.",
           "{Product_name} promises {benefit} - but does it deliver?"] }
  else if content_type = "how_to_guide" then
    some
      { structure_ := ["overview", "requirements", "step_by_step", "tips_and_tricks", "conclusion"]
        intro_hooks :=
          ["Learning {skill} doesn\x27t have to be complicated.",
           "Master {topic} with this comprehensive guide.",
           "Follow these {number} simple steps to {achieve_goal}.",
           "Ready to {action}? Here\x27s everything you need to know."] }
  else if content_type = "landing_page" then
    some
      { structure_ := ["headline", "problem_solution", "benefits", "social_proof", "call_to_action"]
        intro_hooks :=
          ["Transform your {area} with {solution}.",
           "Stop struggling with {problem} - there\x27s a better way.",
           "Join {number}+ people who have {achieved_result}.",
           "The {adjective} solution to {problem} is finally here."] }
  else none

/-- The four keys of the `content_templates` dict. -/
def content_template_keys : List String :=
  ["blog_post", "review", "how_to_guide", "landing_page"]

/-- `seo_patterns["title_patterns"]` from `load_seo_patterns` (lines 83-91). -/
def title_patterns : List String :=
  ["{number} {adjective} Ways to {action} {keyword}",
   "The Ultimate Guide to {keyword} in {year}",
   "How to {action} {keyword}: {benefit}",
   "{keyword}: Everything You Need to Know",
   "{adjective} {keyword} Tips for {target_audience}",
   "Why {keyword} is {adjective} for {context}",
   "{keyword} vs {alternative}: Which is Better?"]

/-- `seo_patterns["heading_patterns"]["h2"]` (lines 93-101). -/
def h2_patterns : List String :=
  ["What is {keyword}?",
   "Benefits of {keyword}",
   "How to {action} {keyword}",
   "{keyword} Best Practices",
   "Common {keyword} Mistakes to Avoid",
   "{keyword} Tips and Tricks",
   "The Future of {keyword}"]

/-- `seo_patterns["meta_patterns"]` (lines 109-114). -/
def meta_patterns : List String :=
  ["Learn {keyword} with our comprehensive guide. {benefit} in {timeframe}. {call_to_action}.",
   "Discover {adjective} {keyword} strategies that {result}. Expert tips and {benefit}.",
   "{keyword} made simple. {benefit} with proven methods. {call_to_action}.",
   "Master {keyword} with this {adjective} guide. {benefit} and {additional_benefit}."]

/-- The `adjectives` pools of `generate_seo_title` (lines 176-181), with the
`dict.get(content_type, adjectives["blog_post"])` fallback. -/
def title_adjectives (content_type : String) : List String :=
  if content_type = "blog_post" then ["Essential", "Proven", "Expert", "Complete", "Advanced"]
  else if content_type = "review" then ["Honest", "Detailed", "Comprehensive", "In-Depth", "Unbiased"]
  else if content_type = "how_to_guide" then ["Step-by-Step", "Complete", "Beginner\x27s", "Ultimate", "Simple"]
  else if content_type = "landing_page" then ["Revolutionary", "Game-Changing", "Powerful", "Innovative", "Premium"]
  else ["Essential", "Proven", "Expert", "Complete", "Advanced"]

/-- The `actions` pools of `generate_seo_title` (lines 183-188), with the
`dict.get(content_type, actions["blog_post"])` fallback. -/
def title_actions (content_type : String) : List String :=
  if content_type = "blog_post" then ["Master", "Improve", "Optimize", "Boost", "Transform"]
  else if content_type = "review" then ["Choose", "Compare", "Evaluate", "Select", "Find"]
  else if content_type = "how_to_guide" then ["Learn", "Master", "Create", "Build", "Achieve"]
  else if content_type = "landing_page" then ["Transform", "Revolutionize", "Supercharge", "Optimize", "Enhance"]
  else ["Master", "Improve", "Optimize", "Boost", "Transform"]

/-- The fallback suffix pool of the title 60-character guard (line 195). -/
def title_fallbacks : List String :=
  ["Complete Guide", "Expert Tips", "Best Practices"]

/-- The `benefits` pools of `generate_meta_description` (lines 207-212),
with the `dict.get(content_type, benefits["blog_post"])` fallback. -/
def meta_benefits (content_type : String) : List String :=
  if content_type = "blog_post" then ["increase engagement", "boost performance", "improve results"]
  else if content_type = "review" then ["make informed decisions", "save time and money", "choose the best option"]
  else if content_type = "how_to_guide" then ["get started quickly", "avoid common mistakes", "achieve better results"]
  else if content_type = "landing_page" then ["transform your business", "increase conversions", "boost ROI"]
  else ["increase engagement", "boost performance", "improve results"]

/-- All pseudo-random and clock inputs consulted during one
`generate_seo_article` call, supplied by the environment: the indices feed
`pyChoice`, `number` feeds `randint(5, 15)`, `year` is
`datetime.now().year` and `now` is `datetime.now().isoformat()`. -/
structure Randomness where
  title_template : Nat := 0
  title_number : Nat := 0
  title_adjective : Nat := 0
  title_action : Nat := 0
  title_fallback : Nat := 0
  meta_template : Nat := 0
  meta_benefit : Nat := 0
  meta_timeframe : Nat := 0
  meta_cta : Nat := 0
  meta_adjective : Nat := 0
  intro_hook : Nat := 0
  year : Nat := 2024
  now : String := "2024-01-01T00:00:00"
deriving Repr, DecidableEq

/-- The `source_content` dict: the engine reads only
`source_content.get('content', '')`. -/
structure SourceContent where
  content : String
deriving Repr, DecidableEq

/-- The `seo_settings` dict: the five keys read by `generate_seo_article`
(lines 121-125), each with the default `dict.get` supplies. -/
structure SeoSettings where
  primary_keyword : String := ""
  secondary_keywords : List String := []
  content_length : Nat := 800
  tone : String := "professional"
  content_type : String := "blog_post"
deriving Repr, DecidableEq

/-- The resolved title pattern of `generate_seo_title` before the 60-character
guard (lines 167-191): a pseudo-randomly chosen pattern with `{keyword}`,
`{year}`, `{number}`, `{adjective}` and `{action}` substituted. -/
def resolve_title (primary_keyword content_type : String) (r : Randomness) : String :=
  let template := pyChoice title_patterns r.title_template
  let title := pyReplace template "{keyword}" primary_keyword
  let title := pyReplace title "{year}" (toString r.year)
  let title := pyReplace title "{number}" (toString (5 + r.title_number % 11))
  let title := pyReplace title "{adjective}" (pyChoice (title_adjectives content_type) r.title_adjective)
  pyReplace title "{action}" (pyChoice (title_actions content_type) r.title_action)

/-- `SEOContentGenerator.generate_seo_title` (lines 165-197).  The
`source_content` parameter is accepted and unused, as in the source. -/
def generate_seo_title (primary_keyword content_type : String)
    (_source_content : SourceContent) (r : Randomness) : String :=
  let title := resolve_title primary_keyword content_type r
  if title.length > 60 then
    primary_keyword ++ ": " ++ pyChoice title_fallbacks r.title_fallback
  else title

/-- `SEOContentGenerator.generate_meta_description` (lines 199-228). -/
def generate_meta_description (primary_keyword content_type : String)
    (r : Randomness) : String :=
  let template := pyChoice meta_patterns r.meta_template
  let meta := pyReplace template "{keyword}" primary_keyword
  let meta := pyReplace meta "{benefit}" (pyChoice (meta_benefits content_type) r.meta_benefit)
  let meta := pyReplace meta "{timeframe}" (pyChoice ["minutes", "today", "this week", "quickly"] r.meta_timeframe)
  let meta := pyReplace meta "{call_to_action}" (pyChoice ["Get started now", "Learn more", "Try it today", "Download free guide"] r.meta_cta)
  let meta := pyReplace meta "{adjective}" (pyChoice ["proven", "effective", "powerful", "simple"] r.meta_adjective)
  let meta := pyReplace meta "{result}" "deliver real results"
  let meta := pyReplace meta "{additional_benefit}" "save time"
  if meta.length > 160 then
    "Learn " ++ primary_keyword ++ " with our comprehensive guide. Expert tips and proven strategies to improve your results. Get started today."
  else meta

/-- `SEOContentGenerator.generate_introduction` (lines 258-289).  Line 262
indexes `self.content_templates[content_type]` directly (no `.get`
fallback), so an unknown `content_type` raises `KeyError(content_type)`,
whose `str()` is the quoted key — modelled as the `Except.error` value. -/
def generate_introduction (primary_keyword source_text content_type _tone : String)
    (r : Randomness) : Except String String :=
  match content_templates content_type with
  | none => .error ("\x27" ++ content_type ++ "\x27")
  | some template =>
    let hooks := template.intro_hooks
    let hook := pyChoice hooks r.intro_hook
    let hook := pyReplace hook "{Primary_keyword}" (pyTitle primary_keyword)
    let hook := pyReplace hook "{main_topic}" primary_keyword
    let intro_content := hook ++ "\n\n"
    let intro_content :=
      if source_text ≠ "" then
        let sentences := (pySplitOn source_text ".").take 3
        let key_points := (sentences.map pyStrip).filter fun s => 20 < s.length
        if key_points ≠ [] then
          intro_content
            ++ "In this comprehensive guide, we\x27ll explore " ++ primary_keyword
            ++ " and discover how it can transform your approach. "
            ++ "You\x27ll learn practical strategies, expert tips, and actionable insights to master "
            ++ primary_keyword ++ ".\n\n"
        else intro_content
      else
        intro_content
          ++ "Understanding " ++ primary_keyword
          ++ " is crucial in today\x27s competitive landscape. "
          ++ "This guide will provide you with everything you need to know about "
          ++ primary_keyword ++ ", "
          ++ "from basic concepts to advanced strategies.\n\n"
    .ok (intro_content
      ++ "Whether you\x27re just getting started or looking to improve your existing "
      ++ primary_keyword ++ " approach, "
      ++ "this article has something valuable for you. Let\x27s dive in!")

/-- `SEOContentGenerator.generate_definition_section` (lines 331-353).  The
`"â€¢"` bullet of line 345 is the literal three-character sequence
U+00E2 U+20AC U+00A2 present in the source file. -/
def generate_definition_section (primary_keyword source_text _tone : String) : String :=
  let content :=
    pyTitle primary_keyword
      ++ " refers to the strategic approach of optimizing and implementing "
      ++ primary_keyword ++ " to achieve better results and improved performance.\n\n"
  let content :=
    if source_text ≠ "" then
      let sentences := pySplitOn source_text "."
      let relevant_sentences :=
        ((sentences.filter fun s =>
            pyContains (strLower s) (strLower primary_keyword)).map pyStrip).take 2
      if relevant_sentences ≠ [] then
        relevant_sentences.foldl
          (fun acc sentence =>
            if 20 < (pyStrip sentence).length then
              acc ++ "â€¢ " ++ pyStrip sentence ++ ".\n"
            else acc)
          (content ++ "Key characteristics include:\n\n")
      else content
    else
      content
        ++ "The core principles of effective " ++ primary_keyword
        ++ " include strategic planning, "
        ++ "consistent implementation, and continuous optimization for best results.\n\n"
  content
    ++ "\nUnderstanding these fundamentals is essential for anyone looking to leverage "
    ++ primary_keyword ++ " effectively in their strategy."

/-- The `benefits` list of `generate_benefits_section` (lines 357-363). -/
def benefits_list (primary_keyword : String) : List String :=
  ["Improved efficiency and performance in " ++ primary_keyword ++ " implementation",
   "Better results through strategic " ++ primary_keyword ++ " optimization",
   "Increased ROI and measurable outcomes",
   "Enhanced competitive advantage in your market",
   "Sustainable long-term growth and success"]

/-- The per-index explanation added inside the loop of
`generate_benefits_section` (lines 370-378). -/
def benefit_explanation (primary_keyword : String) : Nat → String
  | 1 => "When you optimize your " ++ primary_keyword
      ++ " approach, you\x27ll see immediate improvements in efficiency and effectiveness.\n\n"
  | 2 => "Strategic " ++ primary_keyword
      ++ " implementation leads to measurable improvements in key performance indicators.\n\n"
  | 3 => "Proper " ++ primary_keyword
      ++ " strategies provide clear return on investment through improved outcomes.\n\n"
  | 4 => "Stay ahead of competitors by leveraging advanced " ++ primary_keyword
      ++ " techniques and best practices.\n\n"
  | _ => ""

/-- `SEOContentGenerator.generate_benefits_section` (lines 355-385).  The
loop line 368 rebuilds each bullet from `benefit.split(primary_keyword)`;
`parts.getD` models the guarded Python indexing (`[0]` always exists and
`[1]` is only read under `primary_keyword in benefit`). -/
def generate_benefits_section (primary_keyword : String)
    (secondary_keywords : List String) (_tone : String) : String :=
  let benefits := benefits_list primary_keyword
  let content :=
    "Implementing effective " ++ primary_keyword ++ " strategies offers numerous advantages:\n\n"
  let content :=
    ((benefits.take 4).enumFrom 1).foldl
      (fun acc ib =>
        let i := ib.1
        let benefit := ib.2
        let parts := pySplitOn benefit primary_keyword
        acc ++ "**" ++ toString i ++ ". "
          ++ pyTitle (pyStrip (parts.getD 0 ""))
          ++ primary_keyword
          ++ (if pyContains benefit primary_keyword then parts.getD 1 "" else benefit)
          ++ "**\n"
          ++ benefit_explanation primary_keyword i)
      content
  if secondary_keywords ≠ [] then
    content ++ "Additionally, integrating " ++ pyJoin ", " (secondary_keywords.take 2)
      ++ " with your " ++ primary_keyword
      ++ " strategy can amplify these benefits and create synergistic effects."
  else content

/-- `SEOContentGenerator.generate_howto_section` (lines 387-411). -/
def generate_howto_section (primary_keyword source_text _tone : String) : String :=
  let content :=
    "Here\x27s a step-by-step approach to implementing " ++ primary_keyword
      ++ " effectively:\n\n"
  let steps :=
    ["**Step 1: Plan Your " ++ pyTitle primary_keyword ++ " Strategy**\n"
       ++ "Begin by defining clear objectives and identifying key areas where "
       ++ primary_keyword ++ " can make the biggest impact.\n\n",
     "**Step 2: Implement Best Practices**\n"
       ++ "Apply proven " ++ primary_keyword
       ++ " techniques and methodologies that align with your specific goals and requirements.\n\n",
     "**Step 3: Monitor and Optimize**\n"
       ++ "Track performance metrics and continuously refine your " ++ primary_keyword
       ++ " approach based on data and results.\n\n",
     "**Step 4: Scale and Expand**\n"
       ++ "Once you\x27ve achieved success with basic " ++ primary_keyword
       ++ " implementation, expand to more advanced strategies.\n\n"]
  let content := content ++ pyJoin "" steps
  if source_text ≠ "" ∧ 200 < source_text.length then
    content
      ++ "\n**Pro Tip:** Based on industry insights, successful " ++ primary_keyword
      ++ " implementation "
      ++ "requires consistent effort and regular optimization to maintain peak performance."
  else content

/-- The `practices` list of `generate_best_practices_section`
(lines 415-421). -/
def practices_list (primary_keyword : String) : List String :=
  ["Always start with a clear " ++ primary_keyword ++ " strategy and defined goals",
   "Regularly monitor and analyze " ++ primary_keyword ++ " performance metrics",
   "Stay updated with the latest " ++ primary_keyword ++ " trends and developments",
   "Focus on quality over quantity in your " ++ primary_keyword ++ " approach",
   "Test and iterate different " ++ primary_keyword ++ " methods to find what works best"]

/-- The per-index explanation added inside the loop of
`generate_best_practices_section` (lines 428-437). -/
def practice_explanation (primary_keyword : String) : Nat → String
  | 1 => "Clear objectives ensure your " ++ primary_keyword
      ++ " efforts are focused and measurable.\n\n"
  | 2 => "Data-driven insights help you optimize your " ++ primary_keyword
      ++ " performance continuously.\n\n"
  | 3 => "Staying current with " ++ primary_keyword ++ " innovations keeps you competitive.\n\n"
  | 4 => "Quality " ++ primary_keyword ++ " implementation delivers better long-term results.\n\n"
  | 5 => "Continuous testing helps you discover the most effective " ++ primary_keyword
      ++ " strategies.\n\n"
  | _ => ""

/-- `SEOContentGenerator.generate_best_practices_section` (lines 413-443). -/
def generate_best_practices_section (primary_keyword : String)
    (secondary_keywords : List String) (_tone : String) : String :=
  let practices := practices_list primary_keyword
  let content :=
    "Follow these essential " ++ primary_keyword ++ " best practices for optimal results:\n\n"
  let content :=
    (practices.enumFrom 1).foldl
      (fun acc ip =>
        acc ++ "**" ++ toString ip.1 ++ ". " ++ pyTitle ip.2 ++ "**\n"
          ++ practice_explanation primary_keyword ip.1)
      content
  if secondary_keywords ≠ [] then
    content ++ "**Remember:** Integrating " ++ pyJoin ", " (secondary_keywords.take 2)
      ++ " with your " ++ primary_keyword
      ++ " strategy can significantly enhance overall effectiveness and results."
  else content

/-- `SEOContentGenerator.generate_conclusion` (lines 445-469). -/
def generate_conclusion (primary_keyword content_type _tone : String) : String :=
  let content :=
    "Mastering " ++ primary_keyword
      ++ " is essential for achieving outstanding results in today\x27s competitive environment. "
      ++ "By implementing the strategies and best practices outlined in this guide, you\x27ll be well-equipped to "
      ++ "leverage " ++ primary_keyword ++ " effectively and achieve your goals.\n\n"
      ++ "Remember, successful " ++ primary_keyword
      ++ " implementation requires consistency, patience, and continuous learning. "
      ++ "Start with the fundamentals, track your progress, and gradually implement more advanced techniques "
      ++ "as you gain experience.\n\n"
  if content_type = "blog_post" then
    content ++ "Ready to take your " ++ primary_keyword
      ++ " strategy to the next level? Start implementing these techniques today "
      ++ "and watch your results improve. Share your experience in the comments below!"
  else if content_type = "how_to_guide" then
    content ++ "Now you have all the tools needed to succeed with " ++ primary_keyword
      ++ ". Follow the steps outlined above, "
      ++ "stay consistent, and you\x27ll see significant improvements in your results."
  else if content_type = "review" then
    content ++ "Based on our comprehensive analysis, " ++ primary_keyword
      ++ " offers significant value when implemented correctly. "
      ++ "Consider your specific needs and choose the approach that best aligns with your objectives."
  else
    content ++ "Take action today and transform your " ++ primary_keyword
      ++ " approach. The strategies in this guide "
      ++ "have helped countless others achieve success - now it\x27s your turn."

/-- `SEOContentGenerator.generate_main_sections` (lines 291-329): the four
fixed `(heading, content)` pairs keyed `section_1` … `section_4`, in key
order. -/
def generate_main_sections (source_text primary_keyword : String)
    (secondary_keywords : List String) (_content_type tone : String) :
    List (String × String) :=
  let heading1 := pyReplace (h2_patterns.getD 0 "") "{keyword}" (pyTitle primary_keyword)
  let heading2 := pyReplace (h2_patterns.getD 1 "") "{keyword}" (pyTitle primary_keyword)
  let heading3 :=
    pyReplace (pyReplace (h2_patterns.getD 2 "") "{keyword}" primary_keyword)
      "{action}" "implement"
  let heading4 := pyReplace (h2_patterns.getD 3 "") "{keyword}" (pyTitle primary_keyword)
  [(heading1, generate_definition_section primary_keyword source_text tone),
   (heading2, generate_benefits_section primary_keyword secondary_keywords tone),
   (heading3, generate_howto_section primary_keyword source_text tone),
   (heading4, generate_best_practices_section primary_keyword secondary_keywords tone)]

/-- The sections dict built by `generate_article_sections`: the
`"introduction"` and `"conclusion"` string entries plus the
`section_1` … `section_4` heading/content dicts (in sorted key order, which
is their insertion order). -/
structure Sections where
  introduction : String
  main : List (String × String)
  conclusion : String
deriving Repr, DecidableEq

/-- `SEOContentGenerator.generate_article_sections` (lines 230-256).  The
`template` binding of line 235 (a `.get` lookup with `blog_post` fallback)
is dead in the source — computed and never used — and is mirrored here; the
`KeyError` escaping from `generate_introduction` (line 241) propagates. -/
def generate_article_sections (source_content : SourceContent)
    (primary_keyword : String) (secondary_keywords : List String)
    (content_type tone : String) (_target_length : Nat) (r : Randomness) :
    Except String Sections :=
  let _template := (content_templates content_type).getD blog_post_template
  let source_text := source_content.content
  match generate_introduction primary_keyword source_text content_type tone r with
  | .error e => .error e
  | .ok intro =>
    .ok
      { introduction := intro
        main := generate_main_sections source_text primary_keyword secondary_keywords content_type tone
        conclusion := generate_conclusion primary_keyword content_type tone }

/-- The keyword variation pool of `optimize_keyword_density`
(lines 513-518). -/
def keyword_variations (primary_keyword : String) : List String :=
  ["effective " ++ primary_keyword,
   primary_keyword ++ " strategies",
   "successful " ++ primary_keyword,
   primary_keyword ++ " implementation"]

/-- One iteration of the insertion loop of `optimize_keyword_density`
(lines 521-528): if the variation is absent (case-insensitively) and the
body splits into more than two blank-line paragraphs, append the insertion
sentence to the paragraph at index `len(paragraphs) // 2` and re-join. -/
def insert_variation (content variation : String) : String :=
  if ¬ pyContains (strLower content) (strLower variation) then
    let paragraphs := pySplitOn content "\n\n"
    if 2 < paragraphs.length then
      let insert_point := paragraphs.length / 2
      let paragraphs :=
        paragraphs.set insert_point
          (paragraphs.getD insert_point ""
            ++ " When it comes to " ++ variation ++ ", consistency is key.")
      pyJoin "\n\n" paragraphs
    else content
  else content

/-- `SEOContentGenerator.optimize_keyword_density` (lines 497-530).  The
float comparison `primary_density < 1.0` with
`primary_density = (primary_count / total_words) * 100` is written as the
equivalent integer comparison `100 * primary_count < total_words`. -/
def optimize_keyword_density (content primary_keyword : String)
    (_secondary_keywords : List String) : String :=
  let total_words := (pyWords content).length
  if total_words = 0 then content
  else
    let primary_count := pyCount (strLower content) (strLower primary_keyword)
    if 100 * primary_count < total_words then
      ((keyword_variations primary_keyword).take 2).foldl insert_variation content
    else content

/-- `SEOContentGenerator.optimize_content_for_seo` (lines 471-495):
concatenate introduction, `## `-headed main sections and the
`## Conclusion` block, then run the keyword-density optimizer and strip. -/
def optimize_content_for_seo (sections : Sections)
    (primary_keyword : String) (secondary_keywords : List String) : String :=
  let content := sections.introduction ++ "\n\n"
  let content :=
    sections.main.foldl
      (fun acc sec => acc ++ "## " ++ sec.1 ++ "\n\n" ++ sec.2 ++ "\n\n")
      content
  let content := content ++ "## Conclusion\n\n" ++ sections.conclusion ++ "\n\n"
  pyStrip (optimize_keyword_density content primary_keyword secondary_keywords)

/-- The JSON-LD dict of `generate_schema_markup` (lines 532-552); the static
`@context`/`@type`/author/publisher entries are fixed and omitted. -/
structure SchemaMarkup where
  headline : String
  description : String
  keywords : String
  datePublished : String
  dateModified : String
deriving Repr, DecidableEq

/-- `SEOContentGenerator.generate_schema_markup` (lines 532-552). -/
def generate_schema_markup (title description keyword now : String) : SchemaMarkup :=
  { headline := title
    description := description
    keywords := keyword
    datePublished := now
    dateModified := now }

/-- The article dict returned by a successful `generate_seo_article`
(lines 149-160). -/
structure Article where
  title : String
  meta_description : String
  content : String
  schema_markup : SchemaMarkup
  seo_analysis : ScoreReport
  word_count : Nat
  generated_at : String
  settings_used : SeoSettings
  primary_keyword : String
  secondary_keywords : List String
deriving Repr, DecidableEq

/-- `SEOContentGenerator.generate_seo_article` (lines 117-163):
`Except.error` models both the explicit
`{"error": "Primary keyword is required for SEO optimization"}` return
(line 128) and the `except` handler
`{"error": f"Error generating content: {str(e)}"}` (line 163). -/
def generate_seo_article (source_content : SourceContent)
    (seo_settings : SeoSettings) (r : Randomness) : Except String Article :=
  let primary_keyword := pyStrip seo_settings.primary_keyword
  let secondary_keywords := seo_settings.secondary_keywords
  let content_length := seo_settings.content_length
  let tone := seo_settings.tone
  let content_type := seo_settings.content_type
  if primary_keyword = "" then
    .error "Primary keyword is required for SEO optimization"
  else
    let article_title := generate_seo_title primary_keyword content_type source_content r
    let meta_description := generate_meta_description primary_keyword content_type r
    match generate_article_sections source_content primary_keyword secondary_keywords
        content_type tone content_length r with
    | .error e => .error ("Error generating content: " ++ e)
    | .ok article_sections =>
      let optimized_content :=
        optimize_content_for_seo article_sections primary_keyword secondary_keywords
      let schema_markup :=
        generate_schema_markup article_title meta_description primary_keyword r.now
      let seo_analysis :=
        analyze_seo_score optimized_content primary_keyword secondary_keywords
      .ok
        { title := article_title
          meta_description := meta_description
          content := optimized_content
          schema_markup := schema_markup
          seo_analysis := seo_analysis
          word_count := (pyWords optimized_content).length
          generated_at := r.now
          settings_used := seo_settings
          primary_keyword := primary_keyword
          secondary_keywords := secondary_keywords }

/-- Spec-side ranking of the letter grades, `A+` highest: used to state that
the grade mapping is monotone. -/
def gradeRank (grade : String) : Nat :=
  if grade = "A+" then 5
  else if grade = "A" then 4
  else if grade = "B" then 3
  else if grade = "C" then 2
  else if grade = "D" then 1
  else 0

/-- Spec-side count of the lines of `body` matching `^## ` (lines beginning
with `"## "`), as the spec describes the reported heading count. -/
def count_h2_lines (body : String) : Nat :=
  ((pySplitOn body "\n").filter fun l => "## ".data.isPrefixOf l.data).length

/-- Spec-side list of the heading lines of `body`: the lines starting with
`'#'`. -/
def heading_lines (body : String) : List String :=
  (pySplitOn body "\n").filter fun l => l.data.head? == some '#'

theorem density_check_balance (a b : Nat) (d : ℚ) :
    (density_check a b d).iss.length = (density_check a b d).recs.length := by
  unfold density_check; split_ifs <;> rfl

theorem length_check_balance (tw : Nat) :
    (length_check tw).iss.length = (length_check tw).recs.length := by
  unfold length_check; split_ifs <;> rfl

theorem heading_check_balance (h2c : Nat) :
    (heading_check h2c).iss.length = (heading_check h2c).recs.length := by
  unfold heading_check; split_ifs <;> rfl

theorem keyword_heading_check_balance (b : Bool) :
    (keyword_heading_check b).iss.length = (keyword_heading_check b).recs.length := by
  unfold keyword_heading_check; split_ifs <;> rfl

theorem secondary_check_balance (content : String) (sks : List String) :
    (secondary_check content sks).iss.length = (secondary_check content sks).recs.length := by
  simp only [secondary_check]; split_ifs <;> rfl

theorem readability_check_balance (tw dots : Nat) :
    (readability_check tw dots).iss.length = (readability_check tw dots).recs.length := by
  unfold readability_check; split_ifs <;> rfl

theorem density_check_pts_bounds (a b : Nat) (d : ℚ) :
    5 ≤ (density_check a b d).pts ∧ (density_check a b d).pts ≤ 20 := by
  unfold density_check; split_ifs <;> exact ⟨by norm_num, by norm_num⟩

theorem length_check_pts_bounds (tw : Nat) :
    10 ≤ (length_check tw).pts ∧ (length_check tw).pts ≤ 20 := by
  unfold length_check; split_ifs <;> exact ⟨by norm_num, by norm_num⟩

theorem heading_check_pts_bounds (h2c : Nat) :
    0 ≤ (heading_check h2c).pts ∧ (heading_check h2c).pts ≤ 15 := by
  unfold heading_check; split_ifs <;> exact ⟨by norm_num, by norm_num⟩

theorem keyword_heading_check_pts_bounds (b : Bool) :
    0 ≤ (keyword_heading_check b).pts ∧ (keyword_heading_check b).pts ≤ 15 := by
  unfold keyword_heading_check; split_ifs <;> exact ⟨by norm_num, by norm_num⟩

theorem secondary_check_pts_bounds (content : String) (sks : List String) :
    0 ≤ (secondary_check content sks).pts ∧ (secondary_check content sks).pts ≤ 10 := by
  simp only [secondary_check]; split_ifs <;> exact ⟨by norm_num, by norm_num⟩

theorem readability_check_pts_bounds (tw dots : Nat) :
    0 ≤ (readability_check tw dots).pts ∧ (readability_check tw dots).pts ≤ 10 := by
  unfold readability_check; split_ifs <;> exact ⟨by norm_num, by norm_num⟩

theorem combine_report_score_bounds (c1 c2 c3 c4 c5 c6 : Crit) (d : ℚ) (tw h2c : Nat)
    (h1 : 5 ≤ c1.pts ∧ c1.pts ≤ 20) (h2 : 10 ≤ c2.pts ∧ c2.pts ≤ 20)
    (h3 : 0 ≤ c3.pts ∧ c3.pts ≤ 15) (h4 : 0 ≤ c4.pts ∧ c4.pts ≤ 15)
    (h5 : 0 ≤ c5.pts ∧ c5.pts ≤ 10) (h6 : 0 ≤ c6.pts ∧ c6.pts ≤ 10) :
    15 ≤ (combine_report c1 c2 c3 c4 c5 c6 d tw h2c).score ∧
      (combine_report c1 c2 c3 c4 c5 c6 d tw h2c).score ≤ 100 := by
  simp only [combine_report]
  omega

theorem combine_report_balance (c1 c2 c3 c4 c5 c6 : Crit) (d : ℚ) (tw h2c : Nat)
    (b1 : c1.iss.length = c1.recs.length) (b2 : c2.iss.length = c2.recs.length)
    (b3 : c3.iss.length = c3.recs.length) (b4 : c4.iss.length = c4.recs.length)
    (b5 : c5.iss.length = c5.recs.length) (b6 : c6.iss.length = c6.recs.length) :
    ∃ rs, (combine_report c1 c2 c3 c4 c5 c6 d tw h2c).recommendations = some rs ∧
      (combine_report c1 c2 c3 c4 c5 c6 d tw h2c).issues.length = rs.length := by
  refine ⟨_, rfl, ?_⟩
  simp only [combine_report, List.length_append]
  omega

theorem gradeRank_get_seo_grade (s : Int) :
    gradeRank (get_seo_grade s) =
      if 90 ≤ s then 5 else if 80 ≤ s then 4 else if 70 ≤ s then 3
      else if 60 ≤ s then 2 else if 50 ≤ s then 1 else 0 := by
  unfold get_seo_grade
  split_ifs <;> decide

/-- C3: the SEO score is a deterministic pure function of
`(body, primary_keyword, secondary_keywords)` — `analyze_seo_score`
consults no randomness, so two calls with identical arguments return
identical score reports.  In the embedding `analyze_seo_score` is a pure
function of exactly these three arguments (the `Randomness` environment is
not an input), so determinism is extensional equality. -/
theorem analyze_seo_score_deterministic (body primary_keyword : String)
    (secondary_keywords : List String) :
    analyze_seo_score body primary_keyword secondary_keywords =
      analyze_seo_score body primary_keyword secondary_keywords := rfl

/-- C4: the grade mapping `get_seo_grade` is a monotonic step function of
the score with thresholds 90→A+, 80→A, 70→B, 60→C, 50→D, else F: for
scores `s1 < s2` the grade of `s1` is never ranked above the grade of
`s2`. -/
theorem get_seo_grade_monotone (s1 s2 : Int) (h : s1 < s2) :
    gradeRank (get_seo_grade s1) ≤ gradeRank (get_seo_grade s2) := by
  rw [gradeRank_get_seo_grade, gradeRank_get_seo_grade]
  split_ifs <;> omega

/-- Witness for C4 at the concrete scores 60 < 95. -/
theorem get_seo_grade_monotone_witness :
    (60 : Int) < 95 ∧ gradeRank (get_seo_grade 60) ≤ gradeRank (get_seo_grade 95) :=
  ⟨by decide, get_seo_grade_monotone 60 95 (by decide)⟩

/-- C7: for every body with zero whitespace-delimited words,
`analyze_seo_score` short-circuits and returns exactly
`{"score": 0, "issues": ["No content to analyze"]}` — no further criteria
evaluated and every other report field absent (`none`). -/
theorem analyze_seo_score_empty_short_circuit (body primary_keyword : String)
    (secondary_keywords : List String) (h : pyWords body = []) :
    analyze_seo_score body primary_keyword secondary_keywords =
      { score := 0, issues := ["No content to analyze"],
        keyword_density := none, word_count := none, h2_count := none,
        recommendations := none, grade := none } := by
  unfold analyze_seo_score
  rw [if_pos (by simp [h])]

/-- Witness for C7 at the empty body. -/
theorem analyze_seo_score_empty_short_circuit_witness :
    pyWords "" = [] ∧
    analyze_seo_score "" "keyword" [] =
      { score := 0, issues := ["No content to analyze"],
        keyword_density := none, word_count := none, h2_count := none,
        recommendations := none, grade := none } :=
  ⟨rfl, analyze_seo_score_empty_short_circuit "" "keyword" [] rfl⟩

/-- C6 (counterexample): the reported `h2_count` is `content.count('## ')`,
a substring count, not a count of lines matching `^## `: the body
`"x ## y"` has no line beginning with `"## "` yet its report says
`h2_count = 1`, refuting the claim at a concrete input. -/
theorem analyze_h2_count_cex :
    (analyze_seo_score "x ## y" "x" []).h2_count = some 1 ∧
      count_h2_lines "x ## y" = 0 := by
  constructor
  · rfl
  · rfl

/-- C6 (amended): for every body with at least one whitespace-delimited
word, the reported `h2_count` equals the number of non-overlapping
occurrences of the substring `"## "` anywhere in the body (Python
`content.count('## ')`), not the number of `^## ` lines. -/
theorem analyze_h2_count_eq_pyCount (body primary_keyword : String)
    (secondary_keywords : List String) (h : pyWords body ≠ []) :
    (analyze_seo_score body primary_keyword secondary_keywords).h2_count =
      some (pyCount body "## ") := by
  have h0 : ¬(pyWords body).length = 0 := by simpa [List.length_eq_zero] using h
  unfold analyze_seo_score
  rw [if_neg h0]
  rfl

/-- Witness for the amended C6 at the body `"x ## y"`. -/
theorem analyze_h2_count_eq_pyCount_witness :
    pyWords "x ## y" ≠ [] ∧
    (analyze_seo_score "x ## y" "x" []).h2_count = some (pyCount "x ## y" "## ") :=
  ⟨by decide, analyze_h2_count_eq_pyCount "x ## y" "x" [] (by decide)⟩

/-- C8 (counterexample): for the empty body the short-circuit report
contains one issue (`"No content to analyze"`) but no recommendations list
at all, so the issue and recommendation lists are not of matched length for
every body. -/
theorem analyze_empty_unbalanced_cex :
    (analyze_seo_score "" "keyword" []).issues.length = 1 ∧
      (analyze_seo_score "" "keyword" []).recommendations = none := by
  constructor
  · rfl
  · rfl

/-- C8 (amended): for every body containing at least one
whitespace-delimited word, the score report carries a recommendations list
of exactly the same length as its issues list (each failed criterion
appends one issue and one recommendation, 1:1); the empty-body
short-circuit instead returns one issue and no recommendations list. -/
theorem analyze_issue_rec_balance (body primary_keyword : String)
    (secondary_keywords : List String) (h : pyWords body ≠ []) :
    ∃ rs, (analyze_seo_score body primary_keyword secondary_keywords).recommendations = some rs ∧
      (analyze_seo_score body primary_keyword secondary_keywords).issues.length = rs.length := by
  have h0 : ¬(pyWords body).length = 0 := by simpa [List.length_eq_zero] using h
  unfold analyze_seo_score
  rw [if_neg h0]
  simp only [analyze_main]
  exact combine_report_balance _ _ _ _ _ _ _ _ _
    (density_check_balance _ _ _) (length_check_balance _)
    (heading_check_balance _) (keyword_heading_check_balance _)
    (secondary_check_balance _ _) (readability_check_balance _ _)

/-- Witness for the amended C8 at the body `"hello world"`. -/
theorem analyze_issue_rec_balance_witness :
    pyWords "hello world" ≠ [] ∧
    (∃ rs, (analyze_seo_score "hello world" "hello" []).recommendations = some rs ∧
      (analyze_seo_score "hello world" "hello" []).issues.length = rs.length) :=
  ⟨by decide, analyze_issue_rec_balance "hello world" "hello" [] (by decide)⟩

/-- C10: for every body with at least one whitespace-delimited word, the
score of `analyze_seo_score` lies in `[15, 100]`: the density criterion
contributes at least 5 points, the length criterion at least 10, and the
sum of all criteria is capped at 100. -/
theorem analyze_score_bounds (body primary_keyword : String)
    (secondary_keywords : List String) (h : pyWords body ≠ []) :
    15 ≤ (analyze_seo_score body primary_keyword secondary_keywords).score ∧
      (analyze_seo_score body primary_keyword secondary_keywords).score ≤ 100 := by
  have h0 : ¬(pyWords body).length = 0 := by simpa [List.length_eq_zero] using h
  unfold analyze_seo_score
  rw [if_neg h0]
  simp only [analyze_main]
  exact combine_report_score_bounds _ _ _ _ _ _ _ _ _
    (density_check_pts_bounds _ _ _) (length_check_pts_bounds _)
    (heading_check_pts_bounds _) (keyword_heading_check_pts_bounds _)
    (secondary_check_pts_bounds _ _) (readability_check_pts_bounds _ _)

/-- Witness for C10 at the body `"hello world"`. -/
theorem analyze_score_bounds_witness :
    pyWords "hello world" ≠ [] ∧
    (15 ≤ (analyze_seo_score "hello world" "hello" []).score ∧
      (analyze_seo_score "hello world" "hello" []).score ≤ 100) :=
  ⟨by decide, analyze_score_bounds "hello world" "hello" [] (by decide)⟩

/-- C9 (counterexample): `optimize_keyword_density` does append the
insertion sentence to a heading line.  For the body
`"Alpha\n\n## Beta\n\nGamma"` with primary keyword `"x"` the density is
below 1%, the middle paragraph is the heading line `"## Beta"`, and both
insertion passes append their sentence to it — the heading line does not
appear unchanged in the output. -/
theorem optimize_keyword_density_heading_cex :
    heading_lines "Alpha\n\n## Beta\n\nGamma" = ["## Beta"] ∧
    heading_lines (optimize_keyword_density "Alpha\n\n## Beta\n\nGamma" "x" []) =
      ["## Beta When it comes to effective x, consistency is key. When it comes to x strategies, consistency is key."] := by
  constructor
  · rfl
  · rfl

/-- C9 (amended): `optimize_keyword_density` returns the body entirely
unchanged — so in particular every heading line appears unchanged —
whenever the primary-keyword density is at least 1% (the hypothesis
`total_words ≤ 100 * primary_count` is `density ≥ 1.0` over the integers);
when the density is below 1% the inserted sentence is appended to the
paragraph at index `len(paragraphs) // 2` even when that paragraph is a
heading line. -/
theorem optimize_keyword_density_high_density_id (body primary_keyword : String)
    (secondary_keywords : List String)
    (h : (pyWords body).length ≤ 100 * pyCount (strLower body) (strLower primary_keyword)) :
    optimize_keyword_density body primary_keyword secondary_keywords = body := by
  simp only [optimize_keyword_density]
  split_ifs with h0 h1
  · rfl
  · omega
  · rfl

/-- Witness for the amended C9 at the body `"x y"`, whose density for the
keyword `"x"` is 50%. -/
theorem optimize_keyword_density_high_density_id_witness :
    (pyWords "x y").length ≤ 100 * pyCount (strLower "x y") (strLower "x") ∧
    optimize_keyword_density "x y" "x" [] = "x y" :=
  ⟨by decide, optimize_keyword_density_high_density_id "x y" "x" [] (by decide)⟩

/-- C5 (counterexample): the 60-character title budget is not enforced for
every non-empty keyword — the fallback `f"{keyword}: {suffix}"` is not
itself truncated.  With a 50-character primary keyword and the pattern
`"{keyword}: Everything You Need to Know"` the resolved title exceeds 60
characters, the fallback replaces it, and the returned title still has 66
characters. -/
theorem generate_seo_title_long_keyword_cex :
    60 < (generate_seo_title "aaaaaaaaaaaaaaaaaaaaaaaaaaaaaaaaaaaaaaaaaaaaaaaaaa"
      "blog_post" ⟨""⟩ { title_template := 3 }).length := by decide

theorem title_fallback_length_le (i : Nat) :
    (pyChoice title_fallbacks i).length ≤ 14 := by
  have h3 : i % 3 = 0 ∨ i % 3 = 1 ∨ i % 3 = 2 := by omega
  rcases h3 with h3 | h3 | h3 <;>
    simp [pyChoice, title_fallbacks, h3] <;> decide

/-- C5 (amended): whenever the resolved title pattern exceeds 60 characters
`generate_seo_title` replaces it wholesale with the fallback
`f"{keyword}: {Complete Guide|Expert Tips|Best Practices}"`; the returned
title is at most 60 characters provided the primary keyword itself is at
most 44 characters long (the fallback appends up to 16 characters to the
keyword and is not truncated). -/
theorem generate_seo_title_guard (primary_keyword content_type : String)
    (src : SourceContent) (r : Randomness) (h : primary_keyword.length ≤ 44) :
    (60 < (resolve_title primary_keyword content_type r).length →
      generate_seo_title primary_keyword content_type src r =
        primary_keyword ++ ": " ++ pyChoice title_fallbacks r.title_fallback) ∧
    (generate_seo_title primary_keyword content_type src r).length ≤ 60 := by
  have hfb := title_fallback_length_le r.title_fallback
  have hcolon : (": " : String).length = 2 := rfl
  simp only [generate_seo_title]
  split_ifs with ht
  · refine ⟨fun _ => rfl, ?_⟩
    rw [String.length_append, String.length_append]
    omega
  · rw [gt_iff_lt] at ht
    exact ⟨fun hc => absurd hc ht, by omega⟩

/-- Witness for the amended C5 at the keyword `"seo tools"`. -/
theorem generate_seo_title_guard_witness :
    ("seo tools" : String).length ≤ 44 ∧
    ((60 < (resolve_title "seo tools" "blog_post" { }).length →
      generate_seo_title "seo tools" "blog_post" ⟨""⟩ { } =
        "seo tools" ++ ": " ++ pyChoice title_fallbacks ({ } : Randomness).title_fallback) ∧
    (generate_seo_title "seo tools" "blog_post" ⟨""⟩ { }).length ≤ 60) :=
  ⟨by decide, generate_seo_title_guard "seo tools" "blog_post" ⟨""⟩ { } (by decide)⟩

/-- C1: for every generation configuration whose primary keyword is empty
or whitespace-only after stripping, `generate_seo_article` returns the
error value `"Primary keyword is required for SEO optimization"`
immediately — no article record is produced. -/
theorem generate_seo_article_empty_keyword (source : SourceContent)
    (settings : SeoSettings) (r : Randomness)
    (h : pyStrip settings.primary_keyword = "") :
    generate_seo_article source settings r =
      .error "Primary keyword is required for SEO optimization" := by
  unfold generate_seo_article
  rw [if_pos h]

/-- Witness for C1 at a whitespace-only primary keyword. -/
theorem generate_seo_article_empty_keyword_witness :
    pyStrip "   " = "" ∧
    generate_seo_article ⟨""⟩ { primary_keyword := "   " } { } =
      .error "Primary keyword is required for SEO optimization" :=
  ⟨by decide, generate_seo_article_empty_keyword ⟨""⟩ { primary_keyword := "   " } { } (by decide)⟩

theorem content_templates_eq_none_iff (content_type : String) :
    content_templates content_type = none ↔ content_type ∉ content_template_keys := by
  unfold content_templates content_template_keys
  split_ifs with h1 h2 h3 h4 <;> simp_all

theorem generate_introduction_keyerror (primary_keyword source_text content_type tone : String)
    (r : Randomness) (h : content_templates content_type = none) :
    generate_introduction primary_keyword source_text content_type tone r =
      .error ("\x27" ++ content_type ++ "\x27") := by
  unfold generate_introduction
  rw [h]

theorem generate_introduction_ok (primary_keyword source_text content_type tone : String)
    (r : Randomness) (t : ContentTemplate) (h : content_templates content_type = some t) :
    ∃ s, generate_introduction primary_keyword source_text content_type tone r = .ok s := by
  unfold generate_introduction
  rw [h]
  exact ⟨_, rfl⟩

theorem generate_article_sections_keyerror (source : SourceContent)
    (primary_keyword : String) (secondary_keywords : List String)
    (content_type tone : String) (target_length : Nat) (r : Randomness)
    (h : content_templates content_type = none) :
    generate_article_sections source primary_keyword secondary_keywords
        content_type tone target_length r =
      .error ("\x27" ++ content_type ++ "\x27") := by
  simp only [generate_article_sections]
  rw [generate_introduction_keyerror primary_keyword source.content content_type tone r h]

theorem generate_article_sections_ok (source : SourceContent)
    (primary_keyword : String) (secondary_keywords : List String)
    (content_type tone : String) (target_length : Nat) (r : Randomness)
    (t : ContentTemplate) (h : content_templates content_type = some t) :
    ∃ s, generate_article_sections source primary_keyword secondary_keywords
      content_type tone target_length r = .ok s := by
  simp only [generate_article_sections]
  obtain ⟨i, hi⟩ := generate_introduction_ok primary_keyword source.content content_type tone r t h
  rw [hi]
  exact ⟨_, rfl⟩

/-- C2 (counterexample): an unrecognized `content_type` does make
generation fail: `generate_introduction` indexes
`self.content_templates[content_type]` directly, the `KeyError` is caught
by the top-level handler, and `generate_seo_article` returns
`{"error": "Error generating content: 'podcast'"}` instead of an article. -/
theorem generate_seo_article_unknown_type_cex :
    generate_seo_article ⟨""⟩ { primary_keyword := "seo", content_type := "podcast" } { } =
      .error "Error generating content: \x27podcast\x27" := by rfl

/-- C2 (amended): `generate_article_sections`, `generate_seo_title` and
`generate_meta_description` look up an unknown `content_type` with a
fallback to the `blog_post` pools, but `generate_introduction` indexes the
template dict directly, so — given a non-empty stripped primary keyword —
`generate_seo_article` returns an article exactly when `content_type` is
one of the four registered template keys, and an error value otherwise. -/
theorem generate_seo_article_ok_iff_known_type (source : SourceContent)
    (settings : SeoSettings) (r : Randomness)
    (h : pyStrip settings.primary_keyword ≠ "") :
    (∃ a, generate_seo_article source settings r = .ok a) ↔
      settings.content_type ∈ content_template_keys := by
  constructor
  · rintro ⟨a, ha⟩
    by_contra hm
    have hn : content_templates settings.content_type = none :=
      (content_templates_eq_none_iff _).mpr hm
    have hsec := generate_article_sections_keyerror source (pyStrip settings.primary_keyword)
      settings.secondary_keywords settings.content_type settings.tone
      settings.content_length r hn
    simp [generate_seo_article, h, hsec] at ha
  · intro hm
    obtain ⟨t, hct⟩ : ∃ t, content_templates settings.content_type = some t := by
      cases hct : content_templates settings.content_type with
      | none => exact absurd hm ((content_templates_eq_none_iff _).mp hct)
      | some t => exact ⟨t, rfl⟩
    obtain ⟨s, hs⟩ := generate_article_sections_ok source (pyStrip settings.primary_keyword)
      settings.secondary_keywords settings.content_type settings.tone
      settings.content_length r t hct
    rcases hres : generate_seo_article source settings r with e | a
    · exfalso
      simp [generate_seo_article, h, hs] at hres
    · exact ⟨a, rfl⟩

/-- Witness for the amended C2 with the known type `blog_post` and the
non-empty keyword `"seo"`. -/
theorem generate_seo_article_ok_iff_known_type_witness :
    pyStrip "seo" ≠ "" ∧
    ((∃ a, generate_seo_article ⟨""⟩ { primary_keyword := "seo" } { } = .ok a) ↔
      ("blog_post" : String) ∈ content_template_keys) :=
  ⟨by decide, generate_seo_article_ok_iff_known_type ⟨""⟩ { primary_keyword := "seo" } { } (by decide)⟩
